import Mathlib

/-!
Shallow embedding of the round-resolution and state-transition engine of the
rock-paper-scissors-plus game (src/models.py and src/game_logic.py).

Moves, winners and classifications are Python strings and are embedded as
`String`.  The two random draws inside `generate_bot_move` (the 20% bomb roll
and the uniform choice among rock/paper/scissors) are made explicit as a
`BotRand` record, so properties can be stated for every possible random
outcome.  `get_explanation` returns `Option String`: `none` models the
`AttributeError` Python would raise on `None.upper()`; `play_round`
propagates it, so `play_round` returns `none` exactly when the Python method
would raise.
-/

/-- Record appended to `move_history` by `GameState.add_round` (models.py). -/
structure HistoryRecord where
  round : Nat
  user_move : Option String
  bot_move : String
  winner : String
deriving DecidableEq

/-- `GameState` (models.py): per-session mutable game state.  Scores and the
round counter are Python ints that are only ever incremented, so `Nat` is
faithful. -/
structure GameState where
  round_number : Nat := 0
  user_score : Nat := 0
  bot_score : Nat := 0
  user_bomb_used : Bool := false
  bot_bomb_used : Bool := false
  move_history : List HistoryRecord := []
deriving DecidableEq

/-- A fresh `GameState()`, as built by `GameLogic.__init__` / `reset`. -/
def initGameState : GameState := {}

/-- `GameState.add_round` (models.py): append one record to the history,
stamped with the current (already incremented) round number. -/
def GameState.add_round (st : GameState) (user_move : Option String)
    (bot_move : String) (winner : String) : GameState :=
  { st with
    move_history := st.move_history ++
      [{ round := st.round_number, user_move := user_move,
         bot_move := bot_move, winner := winner }] }

/-- `RoundResult` (models.py): snapshot returned by `play_round`. -/
structure RoundResult where
  round_number : Nat
  user_move : Option String
  bot_move : String
  winner : String
  explanation : String
  user_score : Nat
  bot_score : Nat
deriving DecidableEq

/-- Python `str.upper()` (for the ASCII move and winner strings used here). -/
def pyUpper (s : String) : String :=
  String.mk (s.data.map Char.toUpper)

/-- Python `str.capitalize()`: first character uppercased, the rest
lowercased. -/
def pyCapitalize (s : String) : String :=
  match s.data with
  | [] => ""
  | c :: cs => String.mk (Char.toUpper c :: cs.map Char.toLower)

/-- `GameLogic.VALID_MOVES` (game_logic.py). -/
def VALID_MOVES : List String := ["rock", "paper", "scissors", "bomb"]

/-- The list `["rock", "paper", "scissors"]` passed to `random.choice` in
`generate_bot_move`. -/
def rpsChoices : List String := ["rock", "paper", "scissors"]

/-- The classification tags of `MoveInterpretation.classification`
(models.py). -/
def CLASSIFICATIONS : List String := ["VALID", "INVALID", "UNCLEAR"]

/-- One outcome of the random draws made inside `generate_bot_move`:
`bombRoll` is the truth value of `random.random() < 0.2`, and `choice` is
the index drawn by `random.choice` over `rpsChoices`. -/
structure BotRand where
  bombRoll : Bool
  choice : Fin rpsChoices.length
deriving DecidableEq

/-- `GameLogic.generate_bot_move` (game_logic.py), with the state it reads
and the random draws passed explicitly. -/
def generate_bot_move (state : GameState) (r : BotRand) : String :=
  if state.round_number < 2 || state.bot_bomb_used then
    rpsChoices.get r.choice
  else
    if r.bombRoll then "bomb"
    else rpsChoices.get r.choice

/-- The `wins` dict of `GameLogic.determine_winner` (game_logic.py). -/
def wins : List (String × String) :=
  [("rock", "scissors"), ("scissors", "paper"), ("paper", "rock")]

/-- `GameLogic.determine_winner` (game_logic.py).  `wins.get(user_move) ==
bot_move` compares an `Optional[str]` with a `str`, so it is the test
`wins.lookup um = some bot_move`. -/
def determine_winner (user_move : Option String) (bot_move : String) : String :=
  match user_move with
  | none => "no_contest"
  | some um =>
    if um = bot_move then "draw"
    else if um = "bomb" then "user"
    else if bot_move = "bomb" then "bot"
    else if wins.lookup um = some bot_move then "user"
    else "bot"

/-- The `explanations` dict of `GameLogic.get_explanation` (game_logic.py). -/
def explanations : List ((String × String) × String) :=
  [(("rock", "scissors"), "Rock crushes scissors. You win!"),
   (("scissors", "paper"), "Scissors cuts paper. You win!"),
   (("paper", "rock"), "Paper covers rock. You win!"),
   (("scissors", "rock"), "Rock crushes scissors. Bot wins!"),
   (("paper", "scissors"), "Scissors cuts paper. Bot wins!"),
   (("rock", "paper"), "Paper covers rock. Bot wins!")]

/-- `GameLogic.get_explanation` (game_logic.py).  `none` models the
`AttributeError` raised by `user_move.upper()` when `user_move` is `None`
(reachable only if `winner` is inconsistent with `user_move`).  In the final
dict lookup a `None` user move can never equal a string key, so it falls to
the default. -/
def get_explanation (user_move : Option String) (bot_move : String)
    (winner : String) (classification : String) : Option String :=
  if classification = "INVALID" then
    some ("Your move was INVALID. Turn wasted. (Bot played " ++ pyUpper bot_move ++ ")")
  else if classification = "UNCLEAR" then
    some ("Your move was UNCLEAR. Turn wasted. (Bot played " ++ pyUpper bot_move ++ ")")
  else if winner = "no_contest" then
    some "No valid move played. Turn wasted."
  else if winner = "draw" then
    match user_move with
    | none => none
    | some um => some ("Both played " ++ pyUpper um ++ ". It\x27s a draw!")
  else if user_move = some "bomb" then
    some ("Your BOMB destroys " ++ pyUpper bot_move ++ ". You win!")
  else if bot_move = "bomb" then
    match user_move with
    | none => none
    | some um => some ("Bot\x27s BOMB destroys your " ++ pyUpper um ++ ". Bot wins!")
  else
    match user_move with
    | none => some (pyCapitalize winner ++ " wins!")
    | some um =>
      some ((explanations.lookup (um, bot_move)).getD (pyCapitalize winner ++ " wins!"))

/-- `GameLogic.play_round` (game_logic.py): one round as a state transition.
The sequential field updates of the Python method are mirrored by the chain
`st1` … `st5`.  The result is `none` exactly when the Python method would
raise (only possible through `get_explanation`). -/
def play_round (st : GameState) (user_move : Option String)
    (classification : String) (reasoning : String) (r : BotRand) :
    Option (RoundResult × GameState) :=
  let st1 := { st with round_number := st.round_number + 1 }
  let bot_move := generate_bot_move st1 r
  let st2 :=
    if user_move = some "bomb" ∧ classification = "VALID" then
      { st1 with user_bomb_used := true }
    else st1
  let st3 :=
    if bot_move = "bomb" then { st2 with bot_bomb_used := true } else st2
  let winner := determine_winner user_move bot_move
  let st4 :=
    if winner = "user" then { st3 with user_score := st3.user_score + 1 }
    else if winner = "bot" then { st3 with bot_score := st3.bot_score + 1 }
    else st3
  match get_explanation user_move bot_move winner classification with
  | none => none
  | some explanation =>
    let st5 := st4.add_round user_move bot_move winner
    some ({ round_number := st5.round_number, user_move := user_move,
            bot_move := bot_move, winner := winner,
            explanation := explanation, user_score := st5.user_score,
            bot_score := st5.bot_score }, st5)

/-- `GameLogic.get_final_result` (game_logic.py). -/
def get_final_result (st : GameState) : String :=
  if st.user_score > st.bot_score then "user"
  else if st.bot_score > st.user_score then "bot"
  else "draw"

/-- The caller-supplied data of one `play_round` invocation, together with
the bot's random draws for that round. -/
structure RoundInput where
  user_move : Option String
  classification : String
  reasoning : String
  rand : BotRand
deriving DecidableEq

/-- Run a sequence of `play_round` calls from a state, propagating a raised
error as `none`. -/
def runGame (st : GameState) : List RoundInput → Option GameState
  | [] => some st
  | i :: is =>
    match play_round st i.user_move i.classification i.reasoning i.rand with
    | none => none
    | some (_, st2) => runGame st2 is

/-- Number of history records with the given winner tag. -/
def countWinner (w : String) (h : List HistoryRecord) : Nat :=
  (h.filter (fun hr => hr.winner = w)).length

/-- Cyclic dominance as the spec states it (rock beats scissors, scissors
beats paper, paper beats rock); used to compare `determine_winner` against
the spec wording. -/
def spec_beats (a b : String) : Bool :=
  (a = "rock" ∧ b = "scissors") ∨ (a = "scissors" ∧ b = "paper") ∨
    (a = "paper" ∧ b = "rock")

/-! Helper lemmas about the engine. -/

lemma determine_winner_mem (um : Option String) (bm : String) :
    determine_winner um bm ∈ (["user", "bot", "draw", "no_contest"] : List String) := by
  cases um with
  | none => simp [determine_winner]
  | some u =>
    simp only [determine_winner]
    split_ifs <;> simp

lemma rps_get_mem (i : Fin rpsChoices.length) : rpsChoices.get i ∈ VALID_MOVES := by
  fin_cases i <;> decide

lemma generate_bot_move_mem (st : GameState) (r : BotRand) :
    generate_bot_move st r ∈ VALID_MOVES := by
  unfold generate_bot_move
  split_ifs <;> first | exact rps_get_mem r.choice | decide

lemma determine_winner_none (bm : String) :
    determine_winner none bm = "no_contest" := rfl

lemma get_explanation_total (um : Option String) (bm : String) (c : String) :
    (get_explanation um bm (determine_winner um bm) c).isSome := by
  cases um with
  | none =>
    rw [determine_winner_none]
    unfold get_explanation
    split_ifs <;> simp_all
  | some u =>
    unfold get_explanation
    split_ifs <;> simp

/-- Full characterization of one `play_round` step: how the successor state
and the returned snapshot relate to the pre-state and the inputs. -/
lemma play_round_spec (st : GameState) (um : Option String) (c rs : String)
    (r : BotRand) (res : RoundResult) (st2 : GameState)
    (h : play_round st um c rs r = some (res, st2)) :
    st2.round_number = st.round_number + 1 ∧
    (st2.user_bomb_used ↔ (st.user_bomb_used ∨ (um = some "bomb" ∧ c = "VALID"))) ∧
    (st2.bot_bomb_used ↔ (st.bot_bomb_used ∨ res.bot_move = "bomb")) ∧
    st2.user_score = st.user_score + (if res.winner = "user" then 1 else 0) ∧
    st2.bot_score = st.bot_score + (if res.winner = "bot" then 1 else 0) ∧
    st2.move_history = st.move_history ++
      [⟨st.round_number + 1, um, res.bot_move, res.winner⟩] ∧
    res.round_number = st.round_number + 1 ∧
    res.user_move = um ∧
    res.bot_move = generate_bot_move { st with round_number := st.round_number + 1 } r ∧
    res.winner = determine_winner um res.bot_move ∧
    res.user_score = st2.user_score ∧ res.bot_score = st2.bot_score := by
  simp only [play_round] at h
  cases hE : get_explanation um (generate_bot_move { st with round_number := st.round_number + 1 } r)
      (determine_winner um (generate_bot_move { st with round_number := st.round_number + 1 } r)) c with
  | none =>
    rw [hE] at h
    simp at h
  | some e =>
    rw [hE] at h
    simp only [Option.some.injEq, Prod.mk.injEq] at h
    obtain ⟨hres, hst⟩ := h
    subst hres hst
    simp only [GameState.add_round]
    split_ifs <;> simp_all

/-- `play_round` never raises: the `None.upper()` branches of
`get_explanation` are unreachable for a winner computed by
`determine_winner`. -/
lemma get_explanation_ne_none (um : Option String) (bm c : String) :
    get_explanation um bm (determine_winner um bm) c ≠ none := by
  have h := get_explanation_total um bm c
  intro hE
  rw [hE] at h
  simp at h

lemma play_round_isSome (st : GameState) (um : Option String) (c rs : String)
    (r : BotRand) : (play_round st um c rs r).isSome := by
  simp only [play_round]
  split
  · next hE => exact absurd hE (get_explanation_ne_none um _ c)
  · rfl

lemma countWinner_append (w : String) (h : List HistoryRecord) (hr : HistoryRecord) :
    countWinner w (h ++ [hr]) = countWinner w h + (if hr.winner = w then 1 else 0) := by
  simp only [countWinner, List.filter_append, List.length_append]
  by_cases hc : hr.winner = w <;> simp [List.filter, hc]

/-- One `play_round` step adds exactly one round to every accounting
quantity: the four outcome categories absorb exactly one unit, the round
counter and the history length each grow by one. -/
lemma play_round_total_step (st : GameState) (um : Option String) (c rs : String)
    (r : BotRand) (res : RoundResult) (st2 : GameState)
    (h : play_round st um c rs r = some (res, st2)) :
    st2.user_score + st2.bot_score + countWinner "draw" st2.move_history
        + countWinner "no_contest" st2.move_history
      = st.user_score + st.bot_score + countWinner "draw" st.move_history
        + countWinner "no_contest" st.move_history + 1 ∧
    st2.round_number = st.round_number + 1 ∧
    st2.move_history.length = st.move_history.length + 1 := by
  have hs := play_round_spec st um c rs r res st2 h
  obtain ⟨h1, _, _, h4, h5, h6, _, _, _, h10, _⟩ := hs
  have hwmem : res.winner ∈ (["user", "bot", "draw", "no_contest"] : List String) := by
    rw [h10]; exact determine_winner_mem _ _
  refine ⟨?_, h1, by rw [h6]; simp⟩
  rw [h4, h5, h6, countWinner_append, countWinner_append]
  simp only [List.mem_cons, List.not_mem_nil, or_false] at hwmem
  rcases hwmem with hw | hw | hw | hw <;> rw [hw] <;> simp <;> omega

/-- Accumulated trace facts for any run of the engine. -/
lemma runGame_facts (is : List RoundInput) : ∀ (st0 st : GameState),
    runGame st0 is = some st →
    st.round_number = st0.round_number + is.length ∧
    st.move_history.length = st0.move_history.length + is.length ∧
    st.user_score + st.bot_score
        + countWinner "draw" st.move_history + countWinner "no_contest" st.move_history
      = st0.user_score + st0.bot_score
        + countWinner "draw" st0.move_history + countWinner "no_contest" st0.move_history
        + is.length := by
  induction is with
  | nil =>
    intro st0 st h
    simp only [runGame, Option.some.injEq] at h
    subst h
    simp
  | cons i is ih =>
    intro st0 st h
    simp only [runGame] at h
    cases hp : play_round st0 i.user_move i.classification i.reasoning i.rand with
    | none => rw [hp] at h; simp at h
    | some p =>
      rw [hp] at h
      obtain ⟨res, st1⟩ := p
      have hstep := play_round_total_step st0 i.user_move i.classification i.reasoning i.rand res st1 hp
      have htail := ih st1 st h
      obtain ⟨s1, s2, s3⟩ := hstep
      obtain ⟨t1, t2, t3⟩ := htail
      refine ⟨?_, ?_, ?_⟩
      · rw [t1, s2]; simp [List.length_cons]; omega
      · rw [t2, s3]; simp [List.length_cons]; omega
      · rw [t3, s1]; simp [List.length_cons]; omega

/-- C1: for present user and bot moves drawn from the four valid moves,
`determine_winner` returns "draw" exactly when the moves are equal
(bomb-vs-bomb included, so equality is decided before the bomb rule); on
differing moves a user bomb wins for the user, else a bot bomb wins for the
bot, and otherwise the cyclic dominance rock beats scissors, scissors beats
paper, paper beats rock fixes the winner. -/
theorem C1_determine_winner_table :
    ∀ u ∈ VALID_MOVES, ∀ b ∈ VALID_MOVES,
      (determine_winner (some u) b = "draw" ↔ u = b) ∧
      (u ≠ b →
        determine_winner (some u) b =
          (if u = "bomb" then "user"
           else if b = "bomb" then "bot"
           else if spec_beats u b then "user" else "bot")) := by decide

theorem C1_witness :
    (determine_winner (some "rock") "scissors" = "draw" ↔ ("rock" : String) = "scissors") ∧
    (("rock" : String) ≠ "scissors" →
      determine_winner (some "rock") "scissors" =
        (if ("rock" : String) = "bomb" then "user"
         else if ("scissors" : String) = "bomb" then "bot"
         else if spec_beats "rock" "scissors" then "user" else "bot")) :=
  C1_determine_winner_table "rock" (by decide) "scissors" (by decide)

/-- C3: in every successful `play_round` step, `user_bomb_used` afterwards
holds exactly when it already held or the round was played with user move
bomb and classification VALID, and `bot_bomb_used` holds exactly when it
already held or the generated bot move was bomb; in particular neither flag
ever reverts to false, and a second VALID bomb leaves the already-true flag
true with no error. -/
theorem C3_bomb_flags (st : GameState) (um : Option String) (c rs : String)
    (r : BotRand) (res : RoundResult) (st2 : GameState)
    (h : play_round st um c rs r = some (res, st2)) :
    (st2.user_bomb_used ↔ (st.user_bomb_used ∨ (um = some "bomb" ∧ c = "VALID"))) ∧
    (st2.bot_bomb_used ↔ (st.bot_bomb_used ∨ res.bot_move = "bomb")) := by
  have hs := play_round_spec st um c rs r res st2 h
  exact ⟨hs.2.1, hs.2.2.1⟩

theorem C3_witness :
    ((⟨3, 1, 0, true, true, [⟨3, some "bomb", "rock", "user"⟩]⟩ : GameState).user_bomb_used ↔
      ((⟨2, 0, 0, true, true, []⟩ : GameState).user_bomb_used ∨
        ((some "bomb" : Option String) = some "bomb" ∧ ("VALID" : String) = "VALID"))) ∧
    ((⟨3, 1, 0, true, true, [⟨3, some "bomb", "rock", "user"⟩]⟩ : GameState).bot_bomb_used ↔
      ((⟨2, 0, 0, true, true, []⟩ : GameState).bot_bomb_used ∨
        (⟨3, some "bomb", "rock", "user", "Your BOMB destroys ROCK. You win!", 1, 0⟩ :
          RoundResult).bot_move = "bomb")) :=
  C3_bomb_flags ⟨2, 0, 0, true, true, []⟩ (some "bomb") "VALID" "again"
    ⟨false, ⟨0, by decide⟩⟩ _ _ (by decide)

/-- C6: a `play_round` call with an absent user move yields winner
"no_contest", leaves both scores unchanged, and increments the round number
by exactly one. -/
theorem C6_absent_user_move (st : GameState) (c rs : String) (r : BotRand)
    (res : RoundResult) (st2 : GameState)
    (h : play_round st none c rs r = some (res, st2)) :
    res.winner = "no_contest" ∧ st2.user_score = st.user_score ∧
    st2.bot_score = st.bot_score ∧ st2.round_number = st.round_number + 1 := by
  have hs := play_round_spec st none c rs r res st2 h
  obtain ⟨h1, _, _, h4, h5, _, _, _, _, h10, _⟩ := hs
  have hw : res.winner = "no_contest" := by rw [h10]; rfl
  refine ⟨hw, ?_, ?_, h1⟩
  · rw [h4, hw]; simp
  · rw [h5, hw]; simp

theorem C6_witness :
    (⟨1, none, "rock", "no_contest",
       "Your move was UNCLEAR. Turn wasted. (Bot played ROCK)", 0, 0⟩ :
      RoundResult).winner = "no_contest" ∧
    (⟨1, 0, 0, false, false, [⟨1, none, "rock", "no_contest"⟩]⟩ :
      GameState).user_score = initGameState.user_score ∧
    (⟨1, 0, 0, false, false, [⟨1, none, "rock", "no_contest"⟩]⟩ :
      GameState).bot_score = initGameState.bot_score ∧
    (⟨1, 0, 0, false, false, [⟨1, none, "rock", "no_contest"⟩]⟩ :
      GameState).round_number = initGameState.round_number + 1 :=
  C6_absent_user_move initGameState "UNCLEAR" "ambiguous" ⟨false, ⟨0, by decide⟩⟩
    _ _ (by decide)

/-- C7: `get_final_result` returns "user" when the user's score is strictly
greater, "bot" when the bot's score is strictly greater, "draw" on equal
scores, and depends on nothing but the two scores (so repeated calls with
unchanged scores agree; the embedding is a pure function of the state). -/
theorem C7_final_result (st st2 : GameState) :
    (st.bot_score < st.user_score → get_final_result st = "user") ∧
    (st.user_score < st.bot_score → get_final_result st = "bot") ∧
    (st.user_score = st.bot_score → get_final_result st = "draw") ∧
    (st.user_score = st2.user_score → st.bot_score = st2.bot_score →
      get_final_result st = get_final_result st2) := by
  refine ⟨?_, ?_, ?_, ?_⟩
  · intro h; unfold get_final_result; split_ifs <;> first | rfl | omega
  · intro h; unfold get_final_result; split_ifs <;> first | rfl | omega
  · intro h; unfold get_final_result; split_ifs <;> first | rfl | omega
  · intro h1 h2; unfold get_final_result; rw [h1, h2]

theorem C7_witness :
    get_final_result ⟨0, 2, 1, false, false, []⟩ = "user" ∧
    get_final_result ⟨0, 1, 2, false, false, []⟩ = "bot" ∧
    get_final_result ⟨0, 1, 1, false, false, []⟩ = "draw" ∧
    get_final_result ⟨0, 2, 1, false, false, []⟩ =
      get_final_result ⟨9, 2, 1, true, true, []⟩ :=
  ⟨(C7_final_result ⟨0, 2, 1, false, false, []⟩ ⟨0, 2, 1, false, false, []⟩).1 (by decide),
   (C7_final_result ⟨0, 1, 2, false, false, []⟩ ⟨0, 1, 2, false, false, []⟩).2.1 (by decide),
   (C7_final_result ⟨0, 1, 1, false, false, []⟩ ⟨0, 1, 1, false, false, []⟩).2.2.1 (by decide),
   (C7_final_result ⟨0, 2, 1, false, false, []⟩ ⟨9, 2, 1, true, true, []⟩).2.2.2 rfl rfl⟩

/-- C10: a bomb user move whose classification is not VALID still resolves
the round as a contest against a non-bomb bot move — the user wins and the
user score is incremented — while `user_bomb_used` is left exactly as it
was, so the bomb both scores and is not consumed. -/
theorem C10_unvalidated_bomb (st : GameState) (c rs : String) (r : BotRand)
    (res : RoundResult) (st2 : GameState)
    (hc : c ≠ "VALID")
    (h : play_round st (some "bomb") c rs r = some (res, st2))
    (hb : res.bot_move ≠ "bomb") :
    res.winner = "user" ∧ st2.user_score = st.user_score + 1 ∧
    st2.user_bomb_used = st.user_bomb_used := by
  have hs := play_round_spec st (some "bomb") c rs r res st2 h
  obtain ⟨_, h2, _, h4, _, _, _, _, _, h10, _⟩ := hs
  have hne : ("bomb" : String) ≠ res.bot_move := fun hEq => hb hEq.symm
  have hw : res.winner = "user" := by
    rw [h10]; simp [determine_winner, hne]
  refine ⟨hw, ?_, ?_⟩
  · rw [h4, hw]; simp
  · simp [hc] at h2
    cases hx : st.user_bomb_used <;> cases hy : st2.user_bomb_used <;> simp_all

theorem C10_witness :
    (⟨1, some "bomb", "rock", "user",
       "Your move was INVALID. Turn wasted. (Bot played ROCK)", 1, 0⟩ :
      RoundResult).winner = "user" ∧
    (⟨1, 1, 0, false, false, [⟨1, some "bomb", "rock", "user"⟩]⟩ :
      GameState).user_score = initGameState.user_score + 1 ∧
    (⟨1, 1, 0, false, false, [⟨1, some "bomb", "rock", "user"⟩]⟩ :
      GameState).user_bomb_used = initGameState.user_bomb_used :=
  C10_unvalidated_bomb initGameState "INVALID" "r" ⟨false, ⟨0, by decide⟩⟩
    _ _ (by decide) (by decide) (by decide)

/-- C2 (code evaluated at the failing input): the state reached after
exactly one played round has pre-resolution round_number 1 (< 2) and
bot_bomb_used false, yet a `play_round` call from it can generate the bot
move "bomb" (when the 20% roll succeeds), because `generate_bot_move`
checks the post-increment round number; this contradicts the claim and the
code comment "Don't use bomb in first 2 rounds". -/
theorem C2_bot_bomb_second_round :
    (⟨1, 0, 1, false, false, [⟨1, some "rock", "paper", "bot"⟩]⟩ : GameState).round_number < 2 ∧
    (⟨1, 0, 1, false, false, [⟨1, some "rock", "paper", "bot"⟩]⟩ : GameState).bot_bomb_used = false ∧
    runGame initGameState [⟨some "rock", "VALID", "r", ⟨false, ⟨1, by decide⟩⟩⟩] =
      some ⟨1, 0, 1, false, false, [⟨1, some "rock", "paper", "bot"⟩]⟩ ∧
    (play_round ⟨1, 0, 1, false, false, [⟨1, some "rock", "paper", "bot"⟩]⟩
        (some "rock") "VALID" "r" ⟨true, ⟨0, by decide⟩⟩).map (fun p => p.1.bot_move) =
      some "bomb" := by decide

/-- C4: after any run of N `play_round` calls from a fresh state,
user_score + bot_score + draws + no_contests = N = round_number; and each
step adds exactly one to the winning side's score (nothing otherwise),
never decrementing. -/
theorem C4_score_conservation :
    (∀ (is : List RoundInput) (st : GameState), runGame initGameState is = some st →
      st.user_score + st.bot_score + countWinner "draw" st.move_history
          + countWinner "no_contest" st.move_history = is.length ∧
      st.round_number = is.length) ∧
    (∀ (st : GameState) (um : Option String) (c rs : String) (r : BotRand)
        (res : RoundResult) (st2 : GameState),
      play_round st um c rs r = some (res, st2) →
      st2.user_score = st.user_score + (if res.winner = "user" then 1 else 0) ∧
      st2.bot_score = st.bot_score + (if res.winner = "bot" then 1 else 0)) := by
  constructor
  · intro is st h
    have hf := runGame_facts is initGameState st h
    obtain ⟨f1, f2, f3⟩ := hf
    constructor
    · simpa [initGameState, countWinner] using f3
    · simpa [initGameState] using f1
  · intro st um c rs r res st2 h
    have hs := play_round_spec st um c rs r res st2 h
    exact ⟨hs.2.2.2.1, hs.2.2.2.2.1⟩

theorem C4_witness :
    ((⟨1, 1, 0, false, false, [⟨1, some "rock", "scissors", "user"⟩]⟩ : GameState).user_score +
        (⟨1, 1, 0, false, false, [⟨1, some "rock", "scissors", "user"⟩]⟩ : GameState).bot_score +
        countWinner "draw"
          (⟨1, 1, 0, false, false, [⟨1, some "rock", "scissors", "user"⟩]⟩ : GameState).move_history +
        countWinner "no_contest"
          (⟨1, 1, 0, false, false, [⟨1, some "rock", "scissors", "user"⟩]⟩ : GameState).move_history =
        ([⟨some "rock", "VALID", "r", ⟨false, ⟨2, by decide⟩⟩⟩] : List RoundInput).length ∧
      (⟨1, 1, 0, false, false, [⟨1, some "rock", "scissors", "user"⟩]⟩ : GameState).round_number =
        ([⟨some "rock", "VALID", "r", ⟨false, ⟨2, by decide⟩⟩⟩] : List RoundInput).length) ∧
    ((⟨1, 1, 0, false, false, [⟨1, some "rock", "scissors", "user"⟩]⟩ : GameState).user_score =
        initGameState.user_score +
          (if (⟨1, some "rock", "scissors", "user", "Rock crushes scissors. You win!", 1, 0⟩ :
              RoundResult).winner = "user" then 1 else 0) ∧
      (⟨1, 1, 0, false, false, [⟨1, some "rock", "scissors", "user"⟩]⟩ : GameState).bot_score =
        initGameState.bot_score +
          (if (⟨1, some "rock", "scissors", "user", "Rock crushes scissors. You win!", 1, 0⟩ :
              RoundResult).winner = "bot" then 1 else 0)) :=
  ⟨C4_score_conservation.1 [⟨some "rock", "VALID", "r", ⟨false, ⟨2, by decide⟩⟩⟩]
      ⟨1, 1, 0, false, false, [⟨1, some "rock", "scissors", "user"⟩]⟩ (by decide),
   C4_score_conservation.2 initGameState (some "rock") "VALID" "r" ⟨false, ⟨2, by decide⟩⟩
      ⟨1, some "rock", "scissors", "user", "Rock crushes scissors. You win!", 1, 0⟩
      ⟨1, 1, 0, false, false, [⟨1, some "rock", "scissors", "user"⟩]⟩ (by decide)⟩

/-- C5: after every run from a fresh state the history length equals the
round number, and each `play_round` call appends exactly one record —
stamped with the post-increment round number and the returned user move,
bot move and winner — leaving all previously appended records intact. -/
theorem C5_history :
    (∀ (is : List RoundInput) (st : GameState), runGame initGameState is = some st →
      st.move_history.length = st.round_number) ∧
    (∀ (st : GameState) (um : Option String) (c rs : String) (r : BotRand)
        (res : RoundResult) (st2 : GameState),
      play_round st um c rs r = some (res, st2) →
      st2.move_history = st.move_history ++
        [⟨st2.round_number, res.user_move, res.bot_move, res.winner⟩]) := by
  constructor
  · intro is st h
    have hf := runGame_facts is initGameState st h
    obtain ⟨f1, f2, _⟩ := hf
    rw [f1, f2]
    simp [initGameState]
  · intro st um c rs r res st2 h
    have hs := play_round_spec st um c rs r res st2 h
    obtain ⟨h1, _, _, _, _, h6, _, h8, _⟩ := hs
    rw [h6, h1, h8]

theorem C5_witness :
    (⟨1, 1, 0, false, false, [⟨1, some "rock", "scissors", "user"⟩]⟩ :
      GameState).move_history.length =
      (⟨1, 1, 0, false, false, [⟨1, some "rock", "scissors", "user"⟩]⟩ :
        GameState).round_number ∧
    (⟨1, 1, 0, false, false, [⟨1, some "rock", "scissors", "user"⟩]⟩ :
      GameState).move_history =
      initGameState.move_history ++
        [⟨(⟨1, 1, 0, false, false, [⟨1, some "rock", "scissors", "user"⟩]⟩ :
            GameState).round_number,
          (⟨1, some "rock", "scissors", "user", "Rock crushes scissors. You win!", 1, 0⟩ :
            RoundResult).user_move,
          (⟨1, some "rock", "scissors", "user", "Rock crushes scissors. You win!", 1, 0⟩ :
            RoundResult).bot_move,
          (⟨1, some "rock", "scissors", "user", "Rock crushes scissors. You win!", 1, 0⟩ :
            RoundResult).winner⟩] :=
  ⟨C5_history.1 [⟨some "rock", "VALID", "r", ⟨false, ⟨2, by decide⟩⟩⟩]
      ⟨1, 1, 0, false, false, [⟨1, some "rock", "scissors", "user"⟩]⟩ (by decide),
   C5_history.2 initGameState (some "rock") "VALID" "r" ⟨false, ⟨2, by decide⟩⟩
      ⟨1, some "rock", "scissors", "user", "Rock crushes scissors. You win!", 1, 0⟩
      ⟨1, 1, 0, false, false, [⟨1, some "rock", "scissors", "user"⟩]⟩ (by decide)⟩

/-- C8: over every reachable combination — bot move one of the four moves,
user move one of the four moves or absent, winner as computed by
`determine_winner`, classification one of the three tags with the user move
absent unless VALID — `get_explanation` returns a specific message and
never the generic capitalized-winner fallback. -/
theorem C8_explanation_total :
    ∀ um ∈ (none :: VALID_MOVES.map some : List (Option String)),
      ∀ bm ∈ VALID_MOVES, ∀ c ∈ CLASSIFICATIONS,
        (c ≠ "VALID" → um = none) →
        (get_explanation um bm (determine_winner um bm) c ≠
          some (pyCapitalize (determine_winner um bm) ++ " wins!") ∧
        (get_explanation um bm (determine_winner um bm) c).isSome) := by decide

theorem C8_witness :
    get_explanation (some "rock") "paper" (determine_winner (some "rock") "paper") "VALID" ≠
      some (pyCapitalize (determine_winner (some "rock") "paper") ++ " wins!") ∧
    (get_explanation (some "rock") "paper" (determine_winner (some "rock") "paper") "VALID").isSome :=
  C8_explanation_total (some "rock") (by decide) "paper" (by decide) "VALID" (by decide)
    (by decide)

lemma determine_winner_malformed (u bm : String) (hu : u ∉ VALID_MOVES)
    (hbm : bm ∈ VALID_MOVES) : determine_winner (some u) bm = "bot" := by
  have h1 : u ≠ bm := fun hEq => hu (hEq ▸ hbm)
  have h2 : u ≠ "bomb" := fun hEq => hu (by rw [hEq]; decide)
  have hr : u ≠ "rock" := fun hEq => hu (by rw [hEq]; decide)
  have hs2 : u ≠ "scissors" := fun hEq => hu (by rw [hEq]; decide)
  have hp : u ≠ "paper" := fun hEq => hu (by rw [hEq]; decide)
  have hbr : (u == "rock") = false := beq_eq_false_iff_ne.mpr hr
  have hbs : (u == "scissors") = false := beq_eq_false_iff_ne.mpr hs2
  have hbp : (u == "paper") = false := beq_eq_false_iff_ne.mpr hp
  have h3 : wins.lookup u = none := by
    simp [wins, List.lookup, hbr, hbs, hbp]
  simp [determine_winner, h1, h2, h3]

/-- C9 counterexample: at the explicit malformed input user_move "banana"
(classification VALID, fresh state, bot draws rock) the engine does not
fail loudly — `play_round` returns a result and silently coerces the round
to a bot win, refuting the claim's assertion-style failure. -/
theorem C9_counterexample :
    (play_round initGameState (some "banana") "VALID" "r" ⟨false, ⟨0, by decide⟩⟩).isSome ∧
    (play_round initGameState (some "banana") "VALID" "r" ⟨false, ⟨0, by decide⟩⟩).map
      (fun p => p.1.winner) = some "bot" := by decide

/-- C9 amended: the engine raises no error under well-formed input (user
move one of the four values or absent, classification one of the three
tags); a malformed user move string is not rejected but silently coerced —
the round resolves with winner "bot". -/
theorem C9_silent_coercion :
    (∀ (st : GameState) (um : Option String) (c rs : String) (r : BotRand),
      (um = none ∨ ∃ u ∈ VALID_MOVES, um = some u) → c ∈ CLASSIFICATIONS →
      (play_round st um c rs r).isSome) ∧
    (∀ (st : GameState) (c rs : String) (r : BotRand) (u : String)
        (res : RoundResult) (st2 : GameState),
      u ∉ VALID_MOVES →
      play_round st (some u) c rs r = some (res, st2) →
      res.winner = "bot") := by
  constructor
  · intro st um c rs r _ _
    exact play_round_isSome st um c rs r
  · intro st c rs r u res st2 hu h
    have hs := play_round_spec st (some u) c rs r res st2 h
    obtain ⟨_, _, _, _, _, _, _, _, h9, h10, _⟩ := hs
    have hbm : res.bot_move ∈ VALID_MOVES := by
      rw [h9]; exact generate_bot_move_mem _ _
    rw [h10]
    exact determine_winner_malformed u res.bot_move hu hbm

theorem C9_witness :
    (play_round initGameState (some "rock") "VALID" "r" ⟨false, ⟨0, by decide⟩⟩).isSome ∧
    (⟨1, some "banana", "rock", "bot", "Bot wins!", 0, 1⟩ : RoundResult).winner = "bot" :=
  ⟨C9_silent_coercion.1 initGameState (some "rock") "VALID" "r" ⟨false, ⟨0, by decide⟩⟩
      (Or.inr ⟨"rock", by decide, rfl⟩) (by decide),
   C9_silent_coercion.2 initGameState "VALID" "r" ⟨false, ⟨0, by decide⟩⟩ "banana"
      ⟨1, some "banana", "rock", "bot", "Bot wins!", 0, 1⟩
      ⟨1, 0, 1, false, false, [⟨1, some "banana", "rock", "bot"⟩]⟩
      (by decide) (by decide)⟩
